import Mathlib

/-!
Verification development for the discord-jira-bot repository.

The JavaScript sources are shallowly embedded as pure Lean functions.
Asynchronous external calls (Discord API, n8n webhook backend, HTTP fetch)
are modelled by an explicit environment (`Env`) that supplies the outcome of
every such call; a call that can reject is given an `Except String` outcome.
Side effects performed by the handlers (messages sent, webhook calls made,
threads created, deletions scheduled, ...) are collected in an ordered
`List Effect` trace.  Message sends (`thread.send`) are modelled as always
succeeding; no claim under verification involves a failing send.
-/

namespace DJB

/-- JSON primitive values, needed where the source inspects a JSON field
with JavaScript truthiness / strict-inequality semantics
(`data.success !== false`). -/
inductive JVal where
  | jbool (b : Bool)
  | jstr (s : String)
  | jnum (n : Int)
  | jnull
  deriving Repr, DecidableEq

/-- JavaScript truthiness of a `JVal`. -/
def jsTruthy : JVal → Bool
  | .jbool b => b
  | .jstr s => s ≠ ""
  | .jnum n => n ≠ 0
  | .jnull => false

/-- JavaScript `v || d` for an optional string `v` (absent and empty strings
are falsy and fall through to the default). -/
def jsOr (v : Option String) (d : String) : String :=
  match v with
  | some s => if s = "" then d else s
  | none => d

/-- `name && { name: v }` spread pattern used when building request bodies:
the field is included only when the value is present and truthy. -/
def jsOptField (name : String) (v : Option String) : List (String × String) :=
  match v with
  | some s => if s = "" then [] else [(name, s)]
  | none => []

/-! ### String utilities from the source

`src/utils/validators.js` and the inline sanitisation / regexes used across
the handlers. -/

/-- ASCII uppercase test, `[A-Z]` of the source regexes. -/
def isUpperAZ (c : Char) : Bool := 'A' ≤ c && c ≤ 'Z'

/-- ASCII digit test, `\d` of the source regexes. -/
def isDigit09 (c : Char) : Bool := '0' ≤ c && c ≤ '9'

/-- Match the regex `[A-Z]+-\d+` anchored at the head of `cs`
(greedy runs; the pattern admits no backtracking that could change the
result, so greedy scanning is exact). -/
def matchKeyAt (cs : List Char) : Option (List Char) :=
  let us := cs.takeWhile isUpperAZ
  let rest := cs.dropWhile isUpperAZ
  if us.isEmpty then none
  else
    match rest with
    | '-' :: rest2 =>
      let ds := rest2.takeWhile isDigit09
      if ds.isEmpty then none else some (us ++ '-' :: ds)
    | _ => none

/-- Leftmost match of `([A-Z]+-\d+)` in a character list
(`JIRA_TICKET_EXTRACT_REGEX` of `src/utils/validators.js`). -/
def findKey : List Char → Option (List Char)
  | [] => none
  | c :: cs =>
    match matchKeyAt (c :: cs) with
    | some m => some m
    | none => findKey cs

/-- `extractTicketKey` of `src/utils/validators.js`: `null` for a missing or
empty text, otherwise the first `[A-Z]+-\d+` substring. -/
def extractTicketKey (text : Option String) : Option String :=
  match text with
  | none => none
  | some t =>
    if t = "" then none
    else (findKey t.data).map (fun l => String.mk l)

/-- JavaScript `s.startsWith(pre)`, implemented over the character list so
that it evaluates inside the kernel. -/
def jsStartsWith (s pre : String) : Bool := pre.data.isPrefixOf s.data

/-- Leftmost match of `browse\/([A-Z]+-\d+)`: an occurrence of the literal
`browse/` immediately followed by a ticket key. -/
def findBrowseKey : List Char → Option (List Char)
  | [] => none
  | c :: cs =>
    if ("browse/".data).isPrefixOf (c :: cs) then
      match matchKeyAt ((c :: cs).drop 7) with
      | some m => some m
      | none => findBrowseKey cs
    else findBrowseKey cs

/-- `embed.url?.match(/browse\/([A-Z]+-\d+)/)` capture group. -/
def urlBrowseKey (url : Option String) : Option String :=
  match url with
  | none => none
  | some u => (findBrowseKey u.data).map (fun l => String.mk l)

/-- `username.toLowerCase().replace(/[^a-z0-9]/g, '')` — the forum-name
sanitiser used throughout the source. -/
def sanitizeUsername (u : String) : String :=
  String.mk ((u.data.map Char.toLower).filter
    (fun c => ('a' ≤ c && c ≤ 'z') || ('0' ≤ c && c ≤ '9')))

/-- The canonical per-user forum name `tasks-<sanitized-username>`. -/
def canonicalForumName (username : String) : String :=
  "tasks-" ++ sanitizeUsername username

/-- `title.replace(/^[A-Z]+-\d+:\s*/, '')` of `createTaskThread`. -/
def cleanTitlePrefix (title : String) : String :=
  let cs := title.data
  let us := cs.takeWhile isUpperAZ
  let r1 := cs.dropWhile isUpperAZ
  if us.isEmpty then title
  else
    match r1 with
    | '-' :: r2 =>
      let ds := r2.takeWhile isDigit09
      let r3 := r2.dropWhile isDigit09
      if ds.isEmpty then title
      else
        match r3 with
        | ':' :: r4 => String.mk (r4.dropWhile (fun c => c.isWhitespace))
        | _ => title
    | _ => title

/-! ### Reaction lock module (`src/state/reactionLock.js`)

`src/utils/constants.js` defines `TIMEOUTS` without a `REACTION_LOCK`
field, so the threshold read by `cleanupStaleLocks` is `undefined`. -/

/-- `TIMEOUTS.REACTION_LOCK` as read by the lock module: the constants file
has no such field, so the value is `undefined` (modelled as `none`). -/
def TIMEOUTS_REACTION_LOCK : Option Nat := none

/-- JavaScript `a > b` where `b` may be `undefined`: comparing a number with
`undefined` yields `false`. -/
def jsGtOpt (a : Nat) (b : Option Nat) : Bool :=
  match b with
  | some v => a > v
  | none => false

/-- The lock store: `Map<compositeKey, timestamp>` as an association list. -/
abbrev LockMap := List (String × Nat)

/-- `cleanupStaleLocks`: delete every entry with
`now - timestamp > TIMEOUTS.REACTION_LOCK`. -/
def cleanupStaleLocks (now : Nat) (locks : LockMap) : LockMap :=
  locks.filter (fun kv => !jsGtOpt (now - kv.2) TIMEOUTS_REACTION_LOCK)

/-- Composite lock key `"ticketKey:action"`. -/
def lockKey (ticketKey action : String) : String := ticketKey ++ ":" ++ action

/-- `acquireLock`: clean up stale locks, fail if the key is present,
otherwise record the acquisition timestamp. -/
def acquireLock (now : Nat) (locks : LockMap) (ticketKey action : String) :
    Bool × LockMap :=
  let key := lockKey ticketKey action
  let locks := cleanupStaleLocks now locks
  if locks.any (fun kv => kv.1 == key) then (false, locks)
  else (true, locks ++ [(key, now)])

/-- `releaseLock`: delete the entry. -/
def releaseLock (locks : LockMap) (ticketKey action : String) : LockMap :=
  locks.filter (fun kv => kv.1 ≠ lockKey ticketKey action)

/-- `isLocked`: clean up stale locks, then test presence. -/
def isLocked (now : Nat) (locks : LockMap) (ticketKey action : String) : Bool :=
  (cleanupStaleLocks now locks).any (fun kv => kv.1 == lockKey ticketKey action)

/-! ### n8n webhook client (`src/services/n8nService.js`) -/

/-- Parsed JSON body of a backend response: the `success` field kept as a
JSON value (for the `!== false` normalisation), the `error` field, and the
remaining string-valued fields. -/
structure ResponseData where
  success? : Option JVal
  error? : Option String
  payload : List (String × String)
  deriving Repr, DecidableEq

/-- The normalised result envelope `{ success: ..., ...data }`. -/
structure Envelope where
  success : JVal
  error? : Option String
  payload : List (String × String)
  deriving Repr, DecidableEq

/-- Outcome of one `fetch` + `response.json()` round:
either the fetch rejects, or a response arrives with `ok`/`status`/
`statusText` and a body that parses to `ResponseData` or fails to parse. -/
inductive FetchOutcome where
  | reject (msg : String)
  | resp (ok : Bool) (status : Nat) (statusText : String)
      (body : Except String ResponseData)

/-- `{ success: data.success !== false, ...data }` — note that the spread
comes second, so an explicit `success` field of `data` overwrites the
computed one. -/
def mkEnvelope (data : ResponseData) : Envelope :=
  let computed : JVal := .jbool (decide (data.success? ≠ some (.jbool false)))
  { success := match data.success? with
      | some v => v
      | none => computed
    error? := data.error?
    payload := data.payload }

/-- One attempt of the operation passed to `withRetry` by `executeRequest`:
parse failure and non-2xx status are thrown (retryable), a 2xx with a
parsed body returns the normalised envelope. -/
def attemptOnce (o : FetchOutcome) : Except String Envelope :=
  match o with
  | .reject m => .error m
  | .resp ok status statusText body =>
    match body with
    | .error pe => .error ("Failed to parse response: " ++ pe)
    | .ok data =>
      if ok then .ok (mkEnvelope data)
      else .error (jsOr data.error? ("HTTP " ++ toString status ++ ": " ++ statusText))

/-- `RETRY_CONFIG.maxAttempts`. -/
def RETRY_maxAttempts : Nat := 3

/-- `RETRY_CONFIG.baseDelayMs`. -/
def RETRY_baseDelayMs : Nat := 1000

/-- The envelope returned by `withRetry` after exhausting all attempts. -/
def retryFailEnvelope (lastError : String) : Envelope :=
  { success := .jbool false
    error? := some ("Request failed after " ++ toString RETRY_maxAttempts ++
      " attempts: " ++ lastError)
    payload := [] }

/-- The retry loop of `withRetry`, with the operation indexed by attempt
number; returns the result, the number of attempts performed, and the list
of delays slept between attempts.  `fuel` is the number of attempts still
allowed including the current one. -/
def withRetryGo (op : Nat → Except String Envelope) (attempt fuel : Nat) :
    Envelope × Nat × List Nat :=
  match fuel with
  | 0 => (retryFailEnvelope "", 0, [])
  | 1 =>
    match op attempt with
    | .ok r => (r, attempt, [])
    | .error e => (retryFailEnvelope e, attempt, [])
  | n + 2 =>
    match op attempt with
    | .ok r => (r, attempt, [])
    | .error _ =>
      let d := RETRY_baseDelayMs * 2 ^ (attempt - 1)
      let (r, a, ds) := withRetryGo op (attempt + 1) (n + 1)
      (r, a, d :: ds)

/-- `withRetry`: up to `RETRY_CONFIG.maxAttempts` attempts with exponential
backoff; never throws to its caller. -/
def withRetry (op : Nat → Except String Envelope) : Envelope × Nat × List Nat :=
  withRetryGo op 1 RETRY_maxAttempts

/-- `executeRequest`, with the per-attempt HTTP outcome supplied by `http`. -/
def executeRequest (http : Nat → FetchOutcome) : Envelope × Nat × List Nat :=
  withRetry (fun a => attemptOnce (http a))

/-! ### Discord data model -/

/-- Discord channel types used by the source (`ChannelType` of discord.js). -/
inductive CType where
  | guildText
  | publicThread
  | privateThread
  | guildForum
  | guildCategory
  | other
  deriving Repr, DecidableEq

/-- `ch.type === ChannelType.GuildForum`. -/
def isForumType (t : CType) : Bool :=
  match t with
  | .guildForum => true
  | _ => false

/-- Permissions inspected by the source. -/
inductive Perm where
  | viewChannel
  | sendMessages
  | manageThreads
  deriving Repr, DecidableEq

/-- One entry of `channel.permissionOverwrites.cache`. -/
structure Overwrite where
  oid : String
  allow : List Perm
  deriving Repr, DecidableEq

/-- A Discord user (`user.id`, `user.username`, `user.tag`, `user.bot`). -/
structure UserRec where
  id : String
  username : String
  tag : String
  bot : Bool
  deriving Repr, DecidableEq

/-- A guild member as returned by `guild.members.fetch`. -/
structure MemberRec where
  user : UserRec
  roles : List String
  deriving Repr, DecidableEq

/-- A thread as it appears in `fetchActive()`/`fetchArchived()` listings. -/
structure ThreadRec where
  id : String
  name : String
  archived : Bool
  deriving Repr, DecidableEq

/-- A forum-level channel: name, type, permission overwrites, the parent
category id, and the outcomes of its `threads.fetchActive()` /
`threads.fetchArchived()` calls. -/
structure Chan where
  id : String
  name : String
  ctype : CType
  parentId : Option String
  overwrites : List Overwrite
  fetchActive : Except String (List ThreadRec)
  fetchArchived : Except String (List ThreadRec)

/-- A channel as returned by `guild.channels.cache.get`: the channel itself
together with its `children` collection (used when it is a category). -/
structure GuildNode where
  chan : Chan
  children : List Chan

/-- The thread in which a reaction was received. -/
structure TriggerThread where
  id : String
  name : String
  ctype : CType
  parentId : Option String
  parent : Option Chan

/-- A message embed (only the fields the source reads). -/
structure Embed where
  title : Option String
  url : Option String

/-- The bot configuration fields consumed by the embedded code. -/
structure Config where
  rolesPm : String
  workingTickets : String
  completedTasks : String
  tasksForReview : String
  codeUnassigned : String
  artUnassigned : String
  audioUnassigned : String
  moveTicketPath : String
  assignTicketPath : String
  lookupUserPath : String

/-- Observable side effects of the handlers, in execution order. -/
inductive Effect where
  | backendPost (endpoint : String) (body : List (String × String))
  | threadSend (threadId : String) (content : String)
  | fetchActiveEff (forumId : String)
  | fetchArchivedEff (forumId : String)
  | scheduleDelete (threadId : String) (fallbackToArchive : Bool)
  | scheduleArchive (threadId : String)
  | setArchived (threadId : String) (flag : Bool)
  | forumCreate (name : String)
  | threadCreate (forumId : String) (name : String)
  | reactAdd (emoji : String)
  | reactionRemove (userId : String)
  deriving Repr, DecidableEq

/-- Parsed JSON of the raw `fetch` used by `handleApproveTicket` /
`handleDenyTicket` (`move-ticket` webhook response). -/
structure MoveResult where
  success? : Option Bool
  error? : Option String
  summary? : Option String
  assigneeEmail? : Option String
  assigneeDisplayName? : Option String
  assigneeName? : Option String

/-- Parsed JSON of the raw `fetch` used by `handleClaimTicket`
(`assign-ticket` webhook response). -/
structure AssignResult where
  success? : Option Bool
  error? : Option String
  summary? : Option String
  description? : Option String
  priority? : Option String
  labels : List String

/-- The environment of external-call outcomes.  Each field gives the result
of the corresponding Discord / backend API call. -/
structure Env where
  memberFetch : String → Except String MemberRec
  channelsGet : String → Option GuildNode
  lookupHttp : Nat → FetchOutcome
  moveHttp : Nat → FetchOutcome
  rawMoveFetch : Except String MoveResult
  rawAssignFetch : Except String AssignResult
  guildCreateForum : String → Except String Chan
  completedForumCreate : String → Except String Chan
  reviewThreadCreate : String → String → Except String String
  taskThreadCreate : String → String → Except String String
  completedThreadCreate : String → String → Except String String
  starterFetch : String → Except String Bool
  reactOk1 : Except String Unit
  reactOk2 : Except String Unit
  setArchivedOutcome : Except String Unit
  parseDesc : String → String

/-! ### User lookup service (`src/services/userLookupService.js`) -/

/-- Tier 1 of `findUserForum`: exact match on the canonical forum name
computed from the known member username. -/
def tier1Find (cat : GuildNode) (discordUser : Option MemberRec) : Option Chan :=
  match discordUser with
  | none => none
  | some m =>
    cat.children.find? (fun ch =>
      ch.name == canonicalForumName m.user.username && isForumType ch.ctype)

/-- Tier 2 of `findUserForum`: a forum whose permission overwrites grant the
known user id `ViewChannel`. -/
def tier2Find (cat : GuildNode) (discordUserId : Option String) : Option Chan :=
  match discordUserId with
  | none => none
  | some uid =>
    cat.children.find? (fun ch =>
      isForumType ch.ctype &&
      (match ch.overwrites.find? (fun o => o.oid == uid) with
       | some o => o.allow.contains Perm.viewChannel
       | none => false))

/-- Tier 3 of `findUserForum`: scan all forum channels in order, fetching
active then archived thread lists; an error fetching is caught and the
forum skipped; the first forum containing a thread whose name starts with
the ticket key wins.  Also returns the trace of fetch calls performed. -/
def tier3Search (forums : List Chan) (ticketKey : String) :
    Option (Chan × ThreadRec) × List Effect :=
  match forums with
  | [] => (none, [])
  | f :: rest =>
    match f.fetchActive with
    | .error _ =>
      let (r, es) := tier3Search rest ticketKey
      (r, .fetchActiveEff f.id :: es)
    | .ok act =>
      match f.fetchArchived with
      | .error _ =>
        let (r, es) := tier3Search rest ticketKey
        (r, .fetchActiveEff f.id :: .fetchArchivedEff f.id :: es)
      | .ok arch =>
        let t? :=
          match act.find? (fun t => jsStartsWith t.name ticketKey) with
          | some t => some t
          | none => arch.find? (fun t => jsStartsWith t.name ticketKey)
        match t? with
        | some t => (some (f, t), [.fetchActiveEff f.id, .fetchArchivedEff f.id])
        | none =>
          let (r, es) := tier3Search rest ticketKey
          (r, .fetchActiveEff f.id :: .fetchArchivedEff f.id :: es)

/-- Result of `findUserForum` plus the fetch trace of the Tier-3 scan. -/
structure FindResult where
  userForum : Option Chan
  ticketThread : Option ThreadRec
  trace : List Effect

/-- `findUserForum` of `src/services/userLookupService.js`: the three-tier
lookup, short-circuiting on the first tier that produces a forum. -/
def findUserForum (category : Option GuildNode) (discordUserId : Option String)
    (discordUser : Option MemberRec) (ticketKey : String) : FindResult :=
  match category with
  | none => ⟨none, none, []⟩
  | some cat =>
    let uf1 := tier1Find cat discordUser
    let uf2 :=
      match uf1 with
      | some f => some f
      | none => tier2Find cat discordUserId
    match uf2 with
    | some f => ⟨some f, none, []⟩
    | none =>
      let forums := cat.children.filter (fun ch => isForumType ch.ctype)
      match tier3Search forums ticketKey with
      | (some (f, t), es) => ⟨some f, some t, es⟩
      | (none, es) => ⟨none, none, es⟩

/-- `findTicketThread` (`userLookupService.js` and `threadService.js`):
within one forum search active threads for a name-prefix match, then
archived threads; any fetch error yields `null`. -/
def findTicketThread (forum : Option Chan) (ticketKey : String) : Option ThreadRec :=
  match forum with
  | none => none
  | some f =>
    match f.fetchActive with
    | .error _ => none
    | .ok act =>
      match act.find? (fun t => jsStartsWith t.name ticketKey) with
      | some t => some t
      | none =>
        match f.fetchArchived with
        | .error _ => none
        | .ok arch => arch.find? (fun t => jsStartsWith t.name ticketKey)

/-- `executeRequest` at a call site: one `backendPost` effect is recorded
per attempt actually performed. -/
def executeRequestE (http : Nat → FetchOutcome) (endpoint : String)
    (body : List (String × String)) : Envelope × List Effect :=
  let (envl, attempts, _delays) := executeRequest http
  (envl, List.replicate attempts (.backendPost endpoint body))

/-- `lookupDiscordUser` of `userLookupService.js`: resolve a Jira email to a
Discord id via the `lookup-user` webhook, then fetch the member (a failed
member fetch is caught and yields `null`). -/
def lookupDiscordUser (env : Env) (cfg : Config) (jiraEmail : Option String) :
    (Option String × Option MemberRec) × List Effect :=
  match jiraEmail with
  | none => ((none, none), [])
  | some email =>
    if email = "" then ((none, none), [])
    else
      let (envl, effs) := executeRequestE env.lookupHttp cfg.lookupUserPath
        [("jiraEmail", email)]
      match envl.payload.lookup "discordId" with
      | some did =>
        if did = "" then ((none, none), effs)
        else
          match env.memberFetch did with
          | .ok mem => ((some did, some mem), effs)
          | .error _ => ((some did, none), effs)
      | none => ((none, none), effs)

/-! ### Thread service (`src/services/threadService.js`) -/

/-- Outcomes of the lifecycle calls available on one thread. -/
structure ThreadOps where
  deleteOutcome : Except String Unit
  archiveOutcome : Except String Unit

/-- Discord-side actions a scheduled deletion task can perform. -/
inductive TAct where
  | del
  | arch
  deriving Repr, DecidableEq

/-- The task scheduled by `deleteThreadWithDelay`: try to delete; on failure,
if `fallbackToArchive` is set, try to archive; every failure is caught and
logged, so the task itself never fails. -/
def scheduledDeleteTask (ops : ThreadOps) (fallbackToArchive : Bool) :
    Except String (List TAct) :=
  match ops.deleteOutcome with
  | .ok _ => .ok [.del]
  | .error _ =>
    if fallbackToArchive then
      match ops.archiveOutcome with
      | .ok _ => .ok [.del, .arch]
      | .error _ => .ok [.del, .arch]
    else .ok [.del]

/-- `deleteThreadWithDelay`: no-op without a thread, otherwise schedule the
deletion task after `delayMs`. -/
def deleteThreadWithDelay (thread : Option ThreadOps) (delayMs : Nat)
    (fallbackToArchive : Bool) : Option (Nat × Except String (List TAct)) :=
  match thread with
  | none => none
  | some ops => some (delayMs, scheduledDeleteTask ops fallbackToArchive)

/-! ### Forum service (`src/services/forumService.js`) -/

/-- `findOrCreateUserTaskForum(guild, user, categoryId, client)`: look up the
canonical forum in the category; when absent, create it with permission
overwrites that mention `client.user.id`.  When `client` is `undefined`
(`none`), evaluating `client.user` throws before the API call; the `catch`
returns `null`. -/
def findOrCreateUserTaskForum (env : Env) (user : UserRec) (categoryId : String)
    (client : Option UserRec) : Option Chan × List Effect :=
  let forumName := canonicalForumName user.username
  let existing : Option Chan :=
    match env.channelsGet categoryId with
    | some node =>
      node.children.find? (fun ch => ch.name == forumName && isForumType ch.ctype)
    | none => none
  match existing with
  | some f => (some f, [])
  | none =>
    match client with
    | none => (none, [])
    | some _ =>
      match env.guildCreateForum forumName with
      | .ok f => (some f, [.forumCreate forumName])
      | .error _ => (none, [.forumCreate forumName])

/-- Ticket data passed to `createTaskThread`. -/
structure TicketData where
  ticketKey : String
  title : String
  description : Option String
  priority : Option String
  labels : List String
  userId : String

/-- `createTaskThread`: create the `<key>: <clean title>` thread with the
ticket embed, react with the clipboard affordance on the starter message
(failures logged), then post the (possibly truncated) description. -/
def createTaskThread (env : Env) (forum : Chan) (td : TicketData) :
    Option String × List Effect :=
  let cleanTitle := cleanTitlePrefix td.title
  let tname := td.ticketKey ++ ": " ++ cleanTitle
  match env.taskThreadCreate forum.id tname with
  | .error _ => (none, [.threadCreate forum.id tname])
  | .ok tid =>
    let reactEffs :=
      match env.starterFetch tid with
      | .error _ => []
      | .ok false => []
      | .ok true => [Effect.reactAdd "📋"]
    let descriptionText :=
      match td.description with
      | none => "No description provided."
      | some d => if d = "" then "No description provided." else env.parseDesc d
    let descriptionText :=
      if descriptionText.length > 1900 then
        (descriptionText.take 1900) ++ "\n\n*[View full description in Jira]*"
      else descriptionText
    (some tid,
      .threadCreate forum.id tname :: reactEffs ++ [.threadSend tid descriptionText])

/-- `createCompletedTaskThread`: find or create the completed-tasks forum
keyed by the assignee display name, then create the completion thread. -/
def createCompletedTaskThread (env : Env) (cfg : Config) (ticketKey : String)
    (info : MoveResult) (_approver : UserRec) : Option String × List Effect :=
  let assigneeName := jsOr info.assigneeDisplayName? (jsOr info.assigneeName? "Unassigned")
  let forumName := "tasks-" ++ sanitizeUsername assigneeName
  let existing : Option Chan :=
    match env.channelsGet cfg.completedTasks with
    | some node =>
      node.children.find? (fun ch => ch.name == forumName && isForumType ch.ctype)
    | none => none
  let forumAndEffs : Option Chan × List Effect :=
    match existing with
    | some f => (some f, [])
    | none =>
      match env.completedForumCreate forumName with
      | .ok f => (some f, [.forumCreate forumName])
      | .error _ => (none, [.forumCreate forumName])
  match forumAndEffs with
  | (none, effs) => (none, effs)
  | (some f, effs) =>
    let tname := "✅ " ++ ticketKey ++ ": " ++ jsOr info.summary? "Completed Task"
    match env.completedThreadCreate f.id tname with
    | .ok tid => (some tid, effs ++ [.threadCreate f.id tname])
    | .error _ => (none, effs ++ [.threadCreate f.id tname])

/-! ### Task management service (`src/services/taskManagementService.js`) -/

/-- Request body built by `n8nService.moveTicket` (optional fields included
only when truthy, in source order). -/
def moveTicketBody (jiraTicketKey targetStatus : String)
    (approvedBy deniedBy submittedBy discordUserId : Option String) :
    List (String × String) :=
  [("jiraTicketKey", jiraTicketKey), ("targetStatus", targetStatus)] ++
    jsOptField "approvedBy" approvedBy ++
    jsOptField "deniedBy" deniedBy ++
    jsOptField "submittedBy" submittedBy ++
    jsOptField "discordUserId" discordUserId

/-- Result of `submitForReview`. -/
structure SubmitResult where
  success : Bool
  error : Option String
  summary : Option String

/-- `createReviewThread` (private helper of the task management service):
create the review thread with the approve/deny footer, then react `✅` and
`❌` on its starter message; any error is caught and yields `null`. -/
def createReviewThread (env : Env) (forumId ticketKey : String)
    (summary : Option String) : Option String × List Effect :=
  let tname := ticketKey ++ ": " ++ jsOr summary "Review Request"
  match env.reviewThreadCreate forumId tname with
  | .error _ => (none, [.threadCreate forumId tname])
  | .ok tid =>
    match env.starterFetch tid with
    | .error _ => (none, [.threadCreate forumId tname])
    | .ok false => (some tid, [.threadCreate forumId tname])
    | .ok true =>
      match env.reactOk1 with
      | .error _ => (none, [.threadCreate forumId tname, .reactAdd "✅"])
      | .ok _ =>
        match env.reactOk2 with
        | .error _ =>
          (none, [.threadCreate forumId tname, .reactAdd "✅", .reactAdd "❌"])
        | .ok _ =>
          (some tid, [.threadCreate forumId tname, .reactAdd "✅", .reactAdd "❌"])

/-- `submitForReview`: move the ticket to In Review through the retrying
webhook client; on success, create the review thread in the review forum
(when present and of forum type) and ping the PM role in it. -/
def submitForReview (env : Env) (cfg : Config) (ticketKey userId userTag : String) :
    SubmitResult × List Effect :=
  let body := moveTicketBody ticketKey "In Review" none none (some userTag) (some userId)
  let (envl, effs1) := executeRequestE env.moveHttp cfg.moveTicketPath body
  if !jsTruthy envl.success then
    ({ success := false, error := some (jsOr envl.error? "Unknown error"),
       summary := none }, effs1)
  else
    let summary := envl.payload.lookup "summary"
    let tailEffs :=
      match env.channelsGet cfg.tasksForReview with
      | none => []
      | some node =>
        if isForumType node.chan.ctype then
          let (thread?, effs2) := createReviewThread env node.chan.id ticketKey summary
          match thread? with
          | some tid =>
            effs2 ++ [.threadSend tid
              ("<@&" ++ cfg.rolesPm ++ "> New task ready for review!")]
          | none => effs2
        else []
    ({ success := true, error := none, summary := summary }, effs1 ++ tailEffs)

/-! ### Ticket handlers (`src/handlers/ticketHandlers.js`) -/

/-- Request body of the raw `assign-ticket` call in `handleClaimTicket`. -/
def assignTicketBody (user : UserRec) (jiraTicketKey threadId : String) :
    List (String × String) :=
  [("discordUserId", user.id), ("discordUsername", user.username),
   ("discordTag", user.tag), ("jiraTicketKey", jiraTicketKey),
   ("threadId", threadId), ("action", "claim")]

/-- `handleClaimTicket`: call the assign webhook; on success send the
confirmation, find-or-create the working forum — the `client` argument is
omitted at this call site — post the ticket thread when a forum resulted,
and schedule the source thread for deletion with archive fallback. -/
def handleClaimTicket (env : Env) (cfg : Config) (user : UserRec)
    (jiraTicketKey : String) (thread : TriggerThread) : List Effect :=
  let e0 := [Effect.backendPost cfg.assignTicketPath
    (assignTicketBody user jiraTicketKey thread.id)]
  match env.rawAssignFetch with
  | .error m =>
    e0 ++ [.threadSend thread.id ("<@" ++ user.id ++ "> Error processing claim: " ++ m)]
  | .ok result =>
    if result.success? = some true then
      let e1 := e0 ++ [Effect.threadSend thread.id ("<@" ++ user.id ++
        "> claimed this ticket! Moving to **In Progress**. This thread will be deleted.")]
      let (taskForum, e2) :=
        findOrCreateUserTaskForum env user cfg.workingTickets none
      let e3 :=
        match taskForum with
        | some f =>
          (createTaskThread env f
            { ticketKey := jiraTicketKey
              title := jsOr result.summary? thread.name
              description := result.description?
              priority := result.priority?
              labels := result.labels
              userId := user.id }).2
        | none => []
      e1 ++ e2 ++ e3 ++ [.scheduleDelete thread.id true]
    else
      e0 ++ [.threadSend thread.id ("<@" ++ user.id ++ "> Could not claim ticket: " ++
        jsOr result.error? "Unknown error from webhook" ++
        ". Make sure you\x27ve registered with `/register`.")]

/-- `handleApproveTicket`: fetch the member and check the PM role before any
backend call; without the role, reply and return.  With it, move the ticket
to Done, and on success clean up the working thread, create the completed
thread, and schedule deletion of the review thread.  A member-fetch error
is rethrown (`Except.error`). -/
def handleApproveTicket (env : Env) (cfg : Config) (user : UserRec)
    (jiraTicketKey : String) (thread : TriggerThread) :
    Except String Unit × List Effect :=
  match env.memberFetch user.id with
  | .error e => (.error e, [])
  | .ok m =>
    if cfg.rolesPm ∈ m.roles then
      let e0 := [Effect.backendPost cfg.moveTicketPath
        [("jiraTicketKey", jiraTicketKey), ("targetStatus", "Done"),
         ("approvedBy", user.tag)]]
      match env.rawMoveFetch with
      | .error msg => (.ok (), e0 ++ [.threadSend thread.id ("Error: " ++ msg)])
      | .ok result =>
        if result.success? = some true then
          let e1 := e0 ++ [Effect.threadSend thread.id ("Ticket **" ++ jiraTicketKey ++
            "** approved by <@" ++ user.id ++
            "> and moved to **Done**! Cleaning up threads...")]
          let ((duid, duser), eL) := lookupDiscordUser env cfg result.assigneeEmail?
          let delEffs :=
            match env.channelsGet cfg.workingTickets with
            | none => []
            | some wc =>
              let fr := findUserForum (some wc) duid duser jiraTicketKey
              let tt :=
                match fr.ticketThread with
                | some t => some t
                | none =>
                  match fr.userForum with
                  | some uf => findTicketThread (some uf) jiraTicketKey
                  | none => none
              match tt with
              | some t => fr.trace ++ [Effect.scheduleDelete t.id false]
              | none => fr.trace
          let eC := (createCompletedTaskThread env cfg jiraTicketKey result user).2
          (.ok (), e1 ++ eL ++ delEffs ++ eC ++ [.scheduleDelete thread.id false])
        else
          (.ok (), e0 ++ [.threadSend thread.id ("Could not approve ticket: " ++
            jsOr result.error? "Unknown error from webhook")])
    else
      (.ok (),
        [.threadSend thread.id ("<@" ++ user.id ++ "> Only PMs can approve tickets.")])

/-- The denial notice posted to the working thread by `handleDenyTicket`. -/
def denialMsg (discordUserId : Option String) (denierId jiraTicketKey : String) :
    String :=
  (match discordUserId with
   | some did => if did = "" then "" else "<@" ++ did ++ "> - "
   | none => "") ++
  "**Review Denied** by <@" ++ denierId ++
  ">.\n\n**Reason:** Please review feedback in the review thread or contact the PM for details.\n\nYour task has been sent back to **In Progress**. Use `/task review " ++
  jiraTicketKey ++ "` when ready to resubmit."

/-- `handleDenyTicket`: PM gate before any backend call; move the ticket to
In Progress; on success resolve the working thread, unarchive it when
needed, post the denial notice, then schedule deletion of the review
thread.  A member-fetch error is rethrown. -/
def handleDenyTicket (env : Env) (cfg : Config) (user : UserRec)
    (jiraTicketKey : String) (thread : TriggerThread) :
    Except String Unit × List Effect :=
  match env.memberFetch user.id with
  | .error e => (.error e, [])
  | .ok m =>
    if cfg.rolesPm ∈ m.roles then
      let e0 := [Effect.backendPost cfg.moveTicketPath
        [("jiraTicketKey", jiraTicketKey), ("targetStatus", "In Progress"),
         ("deniedBy", user.tag)]]
      match env.rawMoveFetch with
      | .error msg => (.ok (), e0 ++ [.threadSend thread.id ("Error: " ++ msg)])
      | .ok result =>
        if result.success? = some true then
          let ((duid, duser), eL) := lookupDiscordUser env cfg result.assigneeEmail?
          let inner : Except String Unit × List Effect :=
            match env.channelsGet cfg.workingTickets with
            | none => (.ok (), [])
            | some wc =>
              let fr := findUserForum (some wc) duid duser jiraTicketKey
              match fr.userForum with
              | none => (.ok (), fr.trace)
              | some uf =>
                let tt :=
                  match fr.ticketThread with
                  | some t => some t
                  | none => findTicketThread (some uf) jiraTicketKey
                match tt with
                | none => (.ok (), fr.trace)
                | some t =>
                  if t.archived then
                    match env.setArchivedOutcome with
                    | .error m2 => (.error m2, fr.trace ++ [.setArchived t.id false])
                    | .ok _ =>
                      (.ok (), fr.trace ++ [.setArchived t.id false,
                        .threadSend t.id (denialMsg duid user.id jiraTicketKey)])
                  else
                    (.ok (), fr.trace ++
                      [.threadSend t.id (denialMsg duid user.id jiraTicketKey)])
          match inner.1 with
          | .error m2 =>
            (.ok (), e0 ++ eL ++ inner.2 ++ [.threadSend thread.id ("Error: " ++ m2)])
          | .ok _ =>
            (.ok (), e0 ++ eL ++ inner.2 ++ [.scheduleDelete thread.id false])
        else
          (.ok (), e0 ++ [.threadSend thread.id ("Could not deny ticket: " ++
            jsOr result.error? "Unknown error from webhook")])
    else
      (.ok (),
        [.threadSend thread.id ("<@" ++ user.id ++ "> Only PMs can deny tickets.")])

/-- `handleSubmitForReview`: remove the triggering reaction first, verify
that the thread parent forum is the reactor's own working forum by name,
then run `submitForReview` and report the outcome in-thread. -/
def handleSubmitForReview (env : Env) (cfg : Config) (user : UserRec)
    (jiraTicketKey : String) (thread : TriggerThread) : List Effect :=
  let e0 := [Effect.reactionRemove user.id]
  match thread.parent with
  | none => e0
  | some forumChannel =>
    if forumChannel.name = canonicalForumName user.username then
      let (result, eS) := submitForReview env cfg jiraTicketKey user.id user.tag
      if result.success then
        e0 ++ eS ++ [.threadSend thread.id "Submitted for review! PMs have been notified."]
      else
        e0 ++ eS ++ [.threadSend thread.id ("<@" ++ user.id ++
          "> Could not submit for review: " ++ (result.error.getD ""))]
    else e0

/-! ### Reaction routing -/

/-- `EMOJIS.CHECKMARKS` of `src/utils/constants.js`. -/
def CHECKMARKS : List String :=
  ["✅", "☑️", "✔️", "white_check_mark", "ballot_box_with_check", "heavy_check_mark"]

/-- `EMOJIS.DENY` of `src/utils/constants.js`. -/
def DENY_EMOJIS : List String :=
  ["❌", "✖️", "🚫", "x", "cross_mark", "negative_squared_cross_mark"]

/-- Modelled from the spec: the clipboard alias list of the current
`src/handlers/reactionHandler.js`, which is absent from the sources (only
its unit tests are present).  The spec table routes a "Clipboard reaction
in a user\x27s own working forum" to submit-for-review, matched "against a
fixed alias list covering both Unicode glyphs and text shortcode names". -/
def CLIPBOARD : List String := ["📋", "clipboard"]

/-- The reaction event as consumed by the handler: whether the reaction was
partial and whether its fetch succeeded, the emoji name, the containing
channel and the message embeds. -/
structure Reaction where
  pendingFetch : Bool
  fetchOk : Bool
  emojiName : String
  channel : TriggerThread
  embeds : List Embed

/-- The embed scan of `handleReaction` (per embed: title first, then the
browse-URL pattern; stop at the first hit). -/
def extractFromEmbeds : List Embed → Option String
  | [] => none
  | e :: rest =>
    match extractTicketKey e.title with
    | some k => some k
    | none =>
      match urlBrowseKey e.url with
      | some k => some k
      | none => extractFromEmbeds rest

/-- Ticket-key extraction of `handleReaction`: thread name first, then the
message embeds. -/
def extractKeyForRouting (channelName : String) (embeds : List Embed) :
    Option String :=
  match extractTicketKey (some channelName) with
  | some k => some k
  | none => extractFromEmbeds embeds

/-- Modelled from the spec: `handleReaction` of the current
`src/handlers/reactionHandler.js`, which is absent from the sources (only
its unit tests and two earlier revisions of the handler are present).  The
bot-author guard, the partial-reaction fetch, the checkmark/deny alias
matching, the thread-type guard, the key extraction and the claim /
approve / deny routing follow the earlier in-repo revisions verbatim; the
clipboard branch — a clipboard reaction on a thread whose parent forum
lies in the working-tickets category is routed to submit-for-review — is
reconstructed from the spec transition table and routing policy. -/
def handleReactionM (env : Env) (cfg : Config) (reaction : Reaction)
    (user : UserRec) : List Effect :=
  if user.bot then []
  else if reaction.pendingFetch && !reaction.fetchOk then []
  else
    let emojiName := reaction.emojiName
    let isCheckmark := CHECKMARKS.contains emojiName
    let isDeny := DENY_EMOJIS.contains emojiName
    let isClipboard := CLIPBOARD.contains emojiName
    if !isCheckmark && !isDeny && !isClipboard then []
    else
      let channel := reaction.channel
      if channel.ctype ≠ CType.publicThread ∧ channel.ctype ≠ CType.privateThread then []
      else
        match extractKeyForRouting channel.name reaction.embeds with
        | none => []
        | some jiraTicketKey =>
          let parentIs : String → Bool := fun cid =>
            match channel.parentId with
            | some p => p == cid
            | none => false
          let inUnassigned :=
            parentIs cfg.codeUnassigned || parentIs cfg.artUnassigned ||
              parentIs cfg.audioUnassigned
          if isCheckmark && inUnassigned then
            handleClaimTicket env cfg user jiraTicketKey channel
          else if parentIs cfg.tasksForReview then
            if isCheckmark then
              (handleApproveTicket env cfg user jiraTicketKey channel).2
            else if isDeny then
              (handleDenyTicket env cfg user jiraTicketKey channel).2
            else []
          else if isClipboard then
            match channel.parent with
            | some p =>
              if p.parentId = some cfg.workingTickets then
                handleSubmitForReview env cfg user jiraTicketKey channel
              else []
            | none => []
          else []

/-! ## Theorems -/

/-- Helper: a list whose members all falsify `p` has `find? p = none`. -/
theorem find?_eq_none_of_forall {α : Type} (p : α → Bool) :
    ∀ (l : List α), (∀ x ∈ l, p x = false) → l.find? p = none := by
  intro l h
  rw [List.find?_eq_none]
  intro x hx
  simp [h x hx]

/-- Helper: a list containing a member satisfying `p` has `find? p = some y`
for some satisfying `y`. -/
theorem find?_some_of_exists {α : Type} (p : α → Bool) :
    ∀ (l : List α), (∃ x ∈ l, p x = true) →
      ∃ y, l.find? p = some y ∧ p y = true := by
  intro l h
  have hs : (l.find? p).isSome := List.find?_isSome.mpr h
  cases hf : l.find? p with
  | none => rw [hf] at hs; simp at hs
  | some y => exact ⟨y, rfl, List.find?_some hf⟩

/-- Claim C3: if every attempt of the underlying HTTP operation fails
(transport failure, non-2xx status, or JSON-parse failure), `executeRequest`
performs exactly 3 attempts, sleeps 1000ms and then 2000ms between them,
does not throw (its result is a returned envelope, not an exception), and
returns `{success: false, error}` where the error string is
"Request failed after 3 attempts: " followed by the last error message. -/
theorem executeRequest_retry_bound (http : Nat → FetchOutcome) (e1 e2 e3 : String)
    (h1 : attemptOnce (http 1) = .error e1)
    (h2 : attemptOnce (http 2) = .error e2)
    (h3 : attemptOnce (http 3) = .error e3) :
    executeRequest http =
      ({ success := .jbool false,
         error? := some ("Request failed after 3 attempts: " ++ e3),
         payload := [] }, 3, [1000, 2000]) := by
  show withRetryGo (fun a => attemptOnce (http a)) 1 RETRY_maxAttempts = _
  rw [RETRY_maxAttempts]
  simp only [withRetryGo, h1, h2, h3, RETRY_baseDelayMs]
  rfl

/-- Witness for C3 at a concrete always-rejecting backend. -/
theorem executeRequest_retry_bound_witness :
    executeRequest (fun _ => .reject "connect ECONNREFUSED") =
      ({ success := .jbool false,
         error? := some ("Request failed after 3 attempts: connect ECONNREFUSED"),
         payload := [] }, 3, [1000, 2000]) :=
  executeRequest_retry_bound (fun _ => .reject "connect ECONNREFUSED")
    "connect ECONNREFUSED" "connect ECONNREFUSED" "connect ECONNREFUSED"
    rfl rfl rfl

/-- Claim C6 (code evidence): the lazy TTL purge of the reaction-lock module
never removes anything.  `cleanupStaleLocks` compares each entry age with
`TIMEOUTS.REACTION_LOCK`, a field that `src/utils/constants.js` does not
define, so the guard `now - timestamp > undefined` is always false and
`cleanupStaleLocks` is the identity; consequently a lock taken at time 0 is
still held — and still blocks `acquireLock` — arbitrarily far in the
future.  This contradicts the claimed lazy TTL purge (and the module is
additionally imported by no reaction path in the sources). -/
theorem reactionLock_ttl_never_purges :
    (∀ (now : Nat) (locks : LockMap), cleanupStaleLocks now locks = locks) ∧
    acquireLock 1000000000000 [("KAN-123:approve", 0)] "KAN-123" "approve" =
      (false, [("KAN-123:approve", 0)]) := by
  constructor
  · intro now locks
    simp [cleanupStaleLocks, jsGtOpt, TIMEOUTS_REACTION_LOCK]
  · rfl

/-- Claim C7: a thread scheduled through `deleteThreadWithDelay` runs a task
that never surfaces an error (it always completes with `Except.ok`), and
the archive fallback `setArchived(true)` is attempted exactly when the
delete call fails and `fallbackToArchive` is true — never when
`fallbackToArchive` is false. -/
theorem deleteThreadWithDelay_fallback (ops : ThreadOps) (delayMs : Nat)
    (fallbackToArchive : Bool) :
    ∃ acts, deleteThreadWithDelay (some ops) delayMs fallbackToArchive =
        some (delayMs, Except.ok acts) ∧
      (TAct.arch ∈ acts ↔ (∃ m, ops.deleteOutcome = .error m) ∧ fallbackToArchive = true) := by
  cases hd : ops.deleteOutcome with
  | ok u =>
    refine ⟨[TAct.del], ?_, by simp [hd]⟩
    simp [deleteThreadWithDelay, scheduledDeleteTask, hd]
  | error m =>
    cases fallbackToArchive with
    | false =>
      refine ⟨[TAct.del], ?_, by simp⟩
      simp [deleteThreadWithDelay, scheduledDeleteTask, hd]
    | true =>
      refine ⟨[TAct.del, TAct.arch], ?_, by simp [hd]⟩
      simp only [deleteThreadWithDelay, scheduledDeleteTask, hd]
      cases ha : ops.archiveOutcome <;> simp

/-- Claim C8: a 2xx response with a parseable JSON body is returned (on the
first attempt, with no retries) as the normalised envelope
`{success: data.success !== false, ...data}`; over boolean-or-absent
`success` fields this means the envelope succeeds unless the body carries an
explicit `success: false`, and in particular a body with no `success` field
at all yields `success = true`. -/
theorem executeRequest_success_normalization (http : Nat → FetchOutcome)
    (status : Nat) (statusText : String) (data : ResponseData)
    (h : http 1 = .resp true status statusText (.ok data)) :
    executeRequest http = (mkEnvelope data, 1, []) ∧
    (∀ b, data.success? = some (.jbool b) → (mkEnvelope data).success = .jbool b) ∧
    (data.success? = none → (mkEnvelope data).success = .jbool true) := by
  refine ⟨?_, ?_, ?_⟩
  · show withRetryGo (fun a => attemptOnce (http a)) 1 RETRY_maxAttempts = _
    rw [RETRY_maxAttempts]
    simp [withRetryGo, h, attemptOnce]
  · intro b hb
    simp [mkEnvelope, hb]
  · intro hn
    simp [mkEnvelope, hn]

/-- Helper: `isForumType` decodes to equality with `GuildForum`. -/
theorem isForumType_iff (t : CType) : isForumType t = true ↔ t = CType.guildForum := by
  cases t <;> simp [isForumType]

/-- What the Tier-3 scan extracts from a single forum: `none` when a fetch
errors (the forum is skipped) or no thread name starts with the key,
otherwise the first match (active list first, archived second). -/
def forumYields (f : Chan) (ticketKey : String) : Option ThreadRec :=
  match f.fetchActive with
  | .error _ => none
  | .ok act =>
    match f.fetchArchived with
    | .error _ => none
    | .ok arch =>
      match act.find? (fun t => jsStartsWith t.name ticketKey) with
      | some t => some t
      | none => arch.find? (fun t => jsStartsWith t.name ticketKey)

/-- Helper: a forum yielding nothing is skipped by the Tier-3 scan. -/
theorem tier3_cons_none (f : Chan) (rest : List Chan) (ticketKey : String)
    (h : forumYields f ticketKey = none) :
    (tier3Search (f :: rest) ticketKey).1 = (tier3Search rest ticketKey).1 := by
  obtain ⟨fid, fname, fct, fpid, fov, fa, fb⟩ := f
  cases hr : tier3Search rest ticketKey with
  | mk r es =>
    rw [tier3Search.eq_def]
    cases fa with
    | error e => simp [hr]
    | ok act =>
      cases fb with
      | error e => simp [hr]
      | ok arch =>
        simp only [forumYields] at h
        cases hf : List.find? (fun t => jsStartsWith t.name ticketKey) act with
        | some t => rw [hf] at h; simp at h
        | none =>
          rw [hf] at h
          simp only [] at h
          simp [hf, h, hr]

/-- Helper: a forum yielding a thread stops the Tier-3 scan with that forum
and thread. -/
theorem tier3_cons_some (f : Chan) (rest : List Chan) (ticketKey : String)
    (t : ThreadRec) (h : forumYields f ticketKey = some t) :
    (tier3Search (f :: rest) ticketKey).1 = some (f, t) := by
  obtain ⟨fid, fname, fct, fpid, fov, fa, fb⟩ := f
  rw [tier3Search.eq_def]
  cases fa with
  | error e => simp [forumYields] at h
  | ok act =>
    cases fb with
    | error e => simp [forumYields] at h
    | ok arch =>
      simp only [forumYields] at h
      cases hf : List.find? (fun t => jsStartsWith t.name ticketKey) act with
      | some t2 =>
        rw [hf] at h
        simp only [Option.some.injEq] at h
        subst h
        simp [hf]
      | none =>
        rw [hf] at h
        simp only [] at h
        simp [hf, h]

/-- Helper: the Tier-3 scan returns the first forum (in category order)
that yields a thread, regardless of earlier forums erroring or missing. -/
theorem tier3_first (ticketKey : String) (l1 l2 : List Chan) (f : Chan)
    (t : ThreadRec) (hskip : ∀ g ∈ l1, forumYields g ticketKey = none)
    (hhit : forumYields f ticketKey = some t) :
    (tier3Search (l1 ++ f :: l2) ticketKey).1 = some (f, t) := by
  induction l1 with
  | nil => simpa using tier3_cons_some f l2 ticketKey t hhit
  | cons g gs ih =>
    rw [List.cons_append, tier3_cons_none g _ ticketKey (hskip g (by simp))]
    exact ih (fun x hx => hskip x (by simp [hx]))

/-- Claim C1: in a category containing both a forum whose name equals the
Tier-1 canonical name of the known user and a different forum whose
permission overwrites grant that user ViewChannel, `findUserForum` returns
a Tier-1 name-matching forum (not the permission-matching one), with no
thread result and no Tier-3 fetches performed: the tiers are attempted in
order and the search short-circuits on the first success. -/
theorem findUserForum_tier1_priority (cat : GuildNode) (uid ticketKey : String)
    (m : MemberRec) (nameForum permForum : Chan)
    (hmem1 : nameForum ∈ cat.children)
    (hname : nameForum.name = canonicalForumName m.user.username)
    (htype1 : nameForum.ctype = CType.guildForum)
    (hmem2 : permForum ∈ cat.children)
    (htype2 : permForum.ctype = CType.guildForum)
    (hperm : ∃ o ∈ permForum.overwrites, o.oid = uid ∧ Perm.viewChannel ∈ o.allow)
    (hdiff : permForum.name ≠ canonicalForumName m.user.username) :
    ∃ f, findUserForum (some cat) (some uid) (some m) ticketKey =
        ⟨some f, none, []⟩ ∧
      f.name = canonicalForumName m.user.username ∧
      f.ctype = CType.guildForum ∧ f ≠ permForum := by
  have hp : (fun ch =>
      ch.name == canonicalForumName m.user.username && isForumType ch.ctype)
      nameForum = true := by
    simp [hname, (isForumType_iff _).mpr htype1]
  obtain ⟨f, hf, hpf⟩ := find?_some_of_exists
    (fun ch => ch.name == canonicalForumName m.user.username && isForumType ch.ctype)
    cat.children ⟨nameForum, hmem1, hp⟩
  simp only [Bool.and_eq_true, beq_iff_eq, isForumType_iff] at hpf
  refine ⟨f, ?_, hpf.1, hpf.2, ?_⟩
  · simp [findUserForum, tier1Find, hf]
  · intro hcontra
    exact hdiff (hcontra ▸ hpf.1)

/-- Witness scenario for C1: user `alice`, forum `tasks-alice` plus a
second forum granting her id ViewChannel. -/
def c1NameForum : Chan :=
  { id := "F1", name := "tasks-alice", ctype := .guildForum, parentId := some "CAT"
    overwrites := [], fetchActive := .ok [], fetchArchived := .ok [] }

/-- The permission-matching (Tier-2) forum of the C1 witness scenario. -/
def c1PermForum : Chan :=
  { id := "F2", name := "tasks-oldname", ctype := .guildForum, parentId := some "CAT"
    overwrites := [{ oid := "U1", allow := [Perm.viewChannel] }]
    fetchActive := .ok [], fetchArchived := .ok [] }

/-- The reacting member of the C1 witness scenario. -/
def c1Member : MemberRec :=
  { user := { id := "U1", username := "alice", tag := "alice#1", bot := false }
    roles := [] }

/-- Witness for C1 at the concrete two-forum category. -/
theorem findUserForum_tier1_priority_witness :
    ∃ f, findUserForum
        (some { chan := c1NameForum, children := [c1PermForum, c1NameForum] })
        (some "U1") (some c1Member) "KAN-123" =
        ⟨some f, none, []⟩ ∧
      f.name = canonicalForumName c1Member.user.username ∧
      f.ctype = CType.guildForum ∧ f ≠ c1PermForum :=
  findUserForum_tier1_priority
    { chan := c1NameForum, children := [c1PermForum, c1NameForum] }
    "U1" "KAN-123" c1Member c1NameForum c1PermForum
    (by simp) (by decide) (by decide) (by simp) (by decide)
    ⟨{ oid := "U1", allow := [Perm.viewChannel] }, by simp [c1PermForum], rfl, by simp⟩
    (by decide)

/-- Claim C2: when both identity tiers produce nothing, `findUserForum`
falls back to the Tier-3 scan over the category forum channels in order
and returns the first forum that yields a thread whose name starts with
the ticket key, together with that thread; any forum whose thread fetches
error is skipped, so an API error in an earlier forum never prevents a
match in a later forum from being found. -/
theorem findUserForum_tier3_completeness (cat : GuildNode)
    (discordUserId : Option String) (discordUser : Option MemberRec)
    (ticketKey : String) (l1 l2 : List Chan) (f : Chan) (t : ThreadRec)
    (ht1 : tier1Find cat discordUser = none)
    (ht2 : tier2Find cat discordUserId = none)
    (hsplit : cat.children.filter (fun ch => isForumType ch.ctype) = l1 ++ f :: l2)
    (hskip : ∀ g ∈ l1, forumYields g ticketKey = none)
    (hhit : forumYields f ticketKey = some t) :
    (findUserForum (some cat) discordUserId discordUser ticketKey).userForum
        = some f ∧
    (findUserForum (some cat) discordUserId discordUser ticketKey).ticketThread
        = some t := by
  have h3 := tier3_first ticketKey l1 l2 f t hskip hhit
  rw [← hsplit] at h3
  cases hts : tier3Search
      (cat.children.filter (fun ch => isForumType ch.ctype)) ticketKey with
  | mk r es =>
    rw [hts] at h3
    simp only at h3
    subst h3
    constructor <;> simp [findUserForum, ht1, ht2, hts]

/-- Witness scenario for C2: the first forum errors on fetch, the second
has no matching thread, only the third (searched last) holds the ticket
thread — in its archived list. -/
def c2Forum1 : Chan :=
  { id := "G1", name := "tasks-bob", ctype := .guildForum, parentId := some "CAT"
    overwrites := [], fetchActive := .error "Missing Access"
    fetchArchived := .ok [] }

/-- Second forum of the C2 witness scenario (no matching thread). -/
def c2Forum2 : Chan :=
  { id := "G2", name := "tasks-carol", ctype := .guildForum, parentId := some "CAT"
    overwrites := [], fetchActive := .ok [⟨"T0", "QQQ-7: Other", false⟩]
    fetchArchived := .ok [] }

/-- Third forum of the C2 witness scenario, holding the archived target. -/
def c2Forum3 : Chan :=
  { id := "G3", name := "tasks-dave", ctype := .guildForum, parentId := some "CAT"
    overwrites := [], fetchActive := .ok []
    fetchArchived := .ok [⟨"T9", "KAN-123: Fix bug", true⟩] }

/-- Witness for C2 at the concrete three-forum category with no identity
information. -/
theorem findUserForum_tier3_completeness_witness :
    (findUserForum
        (some { chan := c2Forum1, children := [c2Forum1, c2Forum2, c2Forum3] })
        none none "KAN-123").userForum = some c2Forum3 ∧
    (findUserForum
        (some { chan := c2Forum1, children := [c2Forum1, c2Forum2, c2Forum3] })
        none none "KAN-123").ticketThread = some ⟨"T9", "KAN-123: Fix bug", true⟩ :=
  findUserForum_tier3_completeness
    { chan := c2Forum1, children := [c2Forum1, c2Forum2, c2Forum3] }
    none none "KAN-123" [c2Forum1, c2Forum2] [] c2Forum3
    ⟨"T9", "KAN-123: Fix bug", true⟩
    rfl rfl rfl (by decide) (by decide)

/-- Witness for C8: a 2xx body `{summary: "Fix bug"}` with no `success`
field yields a success envelope. -/
theorem executeRequest_success_normalization_witness :
    executeRequest (fun _ => .resp true 200 "OK"
        (.ok ⟨none, none, [("summary", "Fix bug")]⟩)) =
      (mkEnvelope ⟨none, none, [("summary", "Fix bug")]⟩, 1, []) ∧
    (mkEnvelope ⟨none, none, [("summary", "Fix bug")]⟩).success = .jbool true := by
  have h := executeRequest_success_normalization
    (fun _ => .resp true 200 "OK" (.ok ⟨none, none, [("summary", "Fix bug")]⟩))
    200 "OK" ⟨none, none, [("summary", "Fix bug")]⟩ rfl
  exact ⟨h.1, h.2.2 rfl⟩

/-- Helper: an operation succeeding on its first attempt ends the retry loop
immediately. -/
theorem executeRequest_first_ok (http : Nat → FetchOutcome) (envl : Envelope)
    (h : attemptOnce (http 1) = .ok envl) :
    executeRequest http = (envl, 1, []) := by
  show withRetryGo (fun a => attemptOnce (http a)) 1 RETRY_maxAttempts = _
  rw [RETRY_maxAttempts]
  simp [withRetryGo, h]

/-- Claim C9: ticket-key extraction for reaction routing tries the thread
name first, then each embed title, then the `browse/<KEY>` pattern in the
embed URL, in that order; for the thread named "Random Name" with embed
`{title: "No key here", url: "https://j.example/browse/XYZ-9"}` the
extracted key is "XYZ-9"; and when no source yields a key the routing
silently aborts with no effects. -/
theorem ticket_key_extraction_order :
    (∀ (name : String) (embeds : List Embed) (k : String),
        extractTicketKey (some name) = some k →
        extractKeyForRouting name embeds = some k) ∧
    (∀ (e : Embed) (rest : List Embed) (k : String),
        extractTicketKey e.title = some k →
        extractFromEmbeds (e :: rest) = some k) ∧
    extractKeyForRouting "Random Name"
      [⟨some "No key here", some "https://j.example/browse/XYZ-9"⟩]
      = some "XYZ-9" ∧
    (∀ (env : Env) (cfg : Config) (reaction : Reaction) (user : UserRec),
        extractKeyForRouting reaction.channel.name reaction.embeds = none →
        handleReactionM env cfg reaction user = []) := by
  refine ⟨?_, ?_, by decide, ?_⟩
  · intro name embeds k h
    simp [extractKeyForRouting, h]
  · intro e rest k h
    simp [extractFromEmbeds, h]
  · intro env cfg reaction user h
    unfold handleReactionM
    split
    · rfl
    · split
      · rfl
      · dsimp only
        split
        · rfl
        · split
          · rfl
          · rw [h]

/-- A default environment for the concrete witness scenarios; individual
scenarios override the outcomes they rely on. -/
def baseEnv : Env :=
  { memberFetch := fun _ => .error "Unknown Member"
    channelsGet := fun _ => none
    lookupHttp := fun _ => .reject "down"
    moveHttp := fun _ => .reject "down"
    rawMoveFetch := .error "down"
    rawAssignFetch := .error "down"
    guildCreateForum := fun _ => .error "Missing Permissions"
    completedForumCreate := fun _ => .error "Missing Permissions"
    reviewThreadCreate := fun _ _ => .error "Missing Permissions"
    taskThreadCreate := fun _ _ => .error "Missing Permissions"
    completedThreadCreate := fun _ _ => .error "Missing Permissions"
    starterFetch := fun _ => .error "Unknown Message"
    reactOk1 := .ok ()
    reactOk2 := .ok ()
    setArchivedOutcome := .ok ()
    parseDesc := fun s => s }

/-- A configuration used by the concrete witness scenarios. -/
def witCfg : Config :=
  { rolesPm := "PMROLE", workingTickets := "WCAT", completedTasks := "CCAT"
    tasksForReview := "REVF", codeUnassigned := "CU", artUnassigned := "AU"
    audioUnassigned := "DU", moveTicketPath := "/webhook/move-ticket"
    assignTicketPath := "/webhook/assign-ticket"
    lookupUserPath := "/webhook/lookup-user" }

/-- The reacting (non-PM, non-bot) user of the witness scenarios. -/
def witUser : UserRec :=
  { id := "U1", username := "alice", tag := "alice#1", bot := false }

/-- A keyless reaction: thread and embeds carry no ticket key anywhere. -/
def witKeylessReaction : Reaction :=
  { pendingFetch := false, fetchOk := true, emojiName := "✅"
    channel := { id := "TH0", name := "general chat", ctype := .publicThread
                 parentId := some "CU", parent := none }
    embeds := [] }

/-- Witness for C9: thread-name extraction and the silent abort at concrete
inputs. -/
theorem ticket_key_extraction_order_witness :
    extractKeyForRouting "KAN-55: Fix bug" [] = some "KAN-55" ∧
    handleReactionM baseEnv witCfg witKeylessReaction witUser = [] :=
  ⟨ticket_key_extraction_order.1 "KAN-55: Fix bug" [] "KAN-55" (by decide),
   ticket_key_extraction_order.2.2.2 baseEnv witCfg witKeylessReaction witUser
     (by decide)⟩

/-- Claim C5: for an approve or deny trigger by a user without the PM role,
the handler replies with a permission-denied message in the thread and
performs no webhook backend call at all — the role check precedes and
gates the backend call. -/
theorem pm_gate_short_circuit (env : Env) (cfg : Config) (user : UserRec)
    (jiraTicketKey : String) (thread : TriggerThread) (m : MemberRec)
    (hm : env.memberFetch user.id = .ok m)
    (hrole : cfg.rolesPm ∉ m.roles) :
    handleApproveTicket env cfg user jiraTicketKey thread =
      (.ok (), [.threadSend thread.id
        ("<@" ++ user.id ++ "> Only PMs can approve tickets.")]) ∧
    handleDenyTicket env cfg user jiraTicketKey thread =
      (.ok (), [.threadSend thread.id
        ("<@" ++ user.id ++ "> Only PMs can deny tickets.")]) ∧
    (∀ ep b, Effect.backendPost ep b ∉
      (handleApproveTicket env cfg user jiraTicketKey thread).2) ∧
    (∀ ep b, Effect.backendPost ep b ∉
      (handleDenyTicket env cfg user jiraTicketKey thread).2) := by
  have ha : handleApproveTicket env cfg user jiraTicketKey thread =
      (.ok (), [.threadSend thread.id
        ("<@" ++ user.id ++ "> Only PMs can approve tickets.")]) := by
    simp [handleApproveTicket, hm, hrole]
  have hd : handleDenyTicket env cfg user jiraTicketKey thread =
      (.ok (), [.threadSend thread.id
        ("<@" ++ user.id ++ "> Only PMs can deny tickets.")]) := by
    simp [handleDenyTicket, hm, hrole]
  refine ⟨ha, hd, ?_, ?_⟩
  · intro ep b
    rw [ha]
    simp
  · intro ep b
    rw [hd]
    simp

/-- The non-PM member record of the C5 witness scenario. -/
def witNonPmMember : MemberRec := { user := witUser, roles := ["DEVROLE"] }

/-- Witness for C5: a concrete non-PM member triggers the permission-denied
reply with no backend call. -/
theorem pm_gate_short_circuit_witness :
    handleApproveTicket
        { baseEnv with memberFetch := fun _ => .ok witNonPmMember }
        witCfg witUser "KAN-123"
        { id := "RT1", name := "KAN-123: Fix bug", ctype := .publicThread
          parentId := some "REVF", parent := none } =
      (.ok (), [.threadSend "RT1" "<@U1> Only PMs can approve tickets."]) ∧
    handleDenyTicket
        { baseEnv with memberFetch := fun _ => .ok witNonPmMember }
        witCfg witUser "KAN-123"
        { id := "RT1", name := "KAN-123: Fix bug", ctype := .publicThread
          parentId := some "REVF", parent := none } =
      (.ok (), [.threadSend "RT1" "<@U1> Only PMs can deny tickets."]) ∧
    (∀ ep b, Effect.backendPost ep b ∉
      (handleApproveTicket
        { baseEnv with memberFetch := fun _ => .ok witNonPmMember }
        witCfg witUser "KAN-123"
        { id := "RT1", name := "KAN-123: Fix bug", ctype := .publicThread
          parentId := some "REVF", parent := none }).2) ∧
    (∀ ep b, Effect.backendPost ep b ∉
      (handleDenyTicket
        { baseEnv with memberFetch := fun _ => .ok witNonPmMember }
        witCfg witUser "KAN-123"
        { id := "RT1", name := "KAN-123: Fix bug", ctype := .publicThread
          parentId := some "REVF", parent := none }).2) :=
  pm_gate_short_circuit
    { baseEnv with memberFetch := fun _ => .ok witNonPmMember }
    witCfg witUser "KAN-123"
    { id := "RT1", name := "KAN-123: Fix bug", ctype := .publicThread
      parentId := some "REVF", parent := none }
    witNonPmMember rfl (by decide)

/-- Claim C10: on the refactored claim path `handleClaimTicket` invokes
`findOrCreateUserTaskForum` without the `client` argument, so when the
user\x27s working forum does not already exist, evaluating `client.user`
throws, the error is caught and the function returns `null`: no forum and
no working-forum ticket thread are created, while the claim confirmation
is still sent and the source thread is still scheduled for deletion. -/
theorem claim_missing_client_argument (env : Env) (cfg : Config) (user : UserRec)
    (jiraTicketKey : String) (thread : TriggerThread) (r : AssignResult)
    (node : GuildNode)
    (hfetch : env.rawAssignFetch = .ok r)
    (hs : r.success? = some true)
    (hcat : env.channelsGet cfg.workingTickets = some node)
    (hnone : ∀ ch ∈ node.children,
        (ch.name == canonicalForumName user.username && isForumType ch.ctype)
          = false) :
    findOrCreateUserTaskForum env user cfg.workingTickets none = (none, []) ∧
    (∀ n, Effect.forumCreate n ∉
      handleClaimTicket env cfg user jiraTicketKey thread) ∧
    (∀ fid tn, Effect.threadCreate fid tn ∉
      handleClaimTicket env cfg user jiraTicketKey thread) ∧
    Effect.threadSend thread.id ("<@" ++ user.id ++
        "> claimed this ticket! Moving to **In Progress**. This thread will be deleted.")
      ∈ handleClaimTicket env cfg user jiraTicketKey thread ∧
    Effect.scheduleDelete thread.id true
      ∈ handleClaimTicket env cfg user jiraTicketKey thread := by
  have hfind : node.children.find?
      (fun ch => ch.name == canonicalForumName user.username && isForumType ch.ctype)
      = none := find?_eq_none_of_forall _ node.children hnone
  have hfoc : findOrCreateUserTaskForum env user cfg.workingTickets none
      = (none, []) := by
    simp [findOrCreateUserTaskForum, hcat, hfind]
  have hclaim : handleClaimTicket env cfg user jiraTicketKey thread =
      [.backendPost cfg.assignTicketPath (assignTicketBody user jiraTicketKey thread.id),
       .threadSend thread.id ("<@" ++ user.id ++
         "> claimed this ticket! Moving to **In Progress**. This thread will be deleted."),
       .scheduleDelete thread.id true] := by
    simp [handleClaimTicket, hfetch, hs, hfoc]
  refine ⟨hfoc, ?_, ?_, ?_, ?_⟩
  · intro n
    rw [hclaim]
    simp
  · intro fid tn
    rw [hclaim]
    simp
  · rw [hclaim]
    simp
  · rw [hclaim]
    simp

/-- Witness for C10: concrete claim with a successful backend assignment
and an empty working-tickets category. -/
theorem claim_missing_client_argument_witness :
    findOrCreateUserTaskForum
        { baseEnv with
            rawAssignFetch := .ok ⟨some true, none, some "Fix bug", none, none, []⟩
            channelsGet := fun cid =>
              if cid = "WCAT" then
                some { chan := { id := "WCAT", name := "working-tickets"
                                 ctype := .guildCategory, parentId := none
                                 overwrites := [], fetchActive := .ok []
                                 fetchArchived := .ok [] }
                       children := [] }
              else none }
        witUser "WCAT" none = (none, []) ∧
    (∀ n, Effect.forumCreate n ∉
      handleClaimTicket
        { baseEnv with
            rawAssignFetch := .ok ⟨some true, none, some "Fix bug", none, none, []⟩
            channelsGet := fun cid =>
              if cid = "WCAT" then
                some { chan := { id := "WCAT", name := "working-tickets"
                                 ctype := .guildCategory, parentId := none
                                 overwrites := [], fetchActive := .ok []
                                 fetchArchived := .ok [] }
                       children := [] }
              else none }
        witCfg witUser "KAN-55"
        { id := "SRC", name := "KAN-55: Fix bug", ctype := .publicThread
          parentId := some "CU", parent := none }) ∧
    (∀ fid tn, Effect.threadCreate fid tn ∉
      handleClaimTicket
        { baseEnv with
            rawAssignFetch := .ok ⟨some true, none, some "Fix bug", none, none, []⟩
            channelsGet := fun cid =>
              if cid = "WCAT" then
                some { chan := { id := "WCAT", name := "working-tickets"
                                 ctype := .guildCategory, parentId := none
                                 overwrites := [], fetchActive := .ok []
                                 fetchArchived := .ok [] }
                       children := [] }
              else none }
        witCfg witUser "KAN-55"
        { id := "SRC", name := "KAN-55: Fix bug", ctype := .publicThread
          parentId := some "CU", parent := none }) ∧
    Effect.threadSend "SRC"
        ("<@U1> claimed this ticket! Moving to **In Progress**. This thread will be deleted.")
      ∈ handleClaimTicket
        { baseEnv with
            rawAssignFetch := .ok ⟨some true, none, some "Fix bug", none, none, []⟩
            channelsGet := fun cid =>
              if cid = "WCAT" then
                some { chan := { id := "WCAT", name := "working-tickets"
                                 ctype := .guildCategory, parentId := none
                                 overwrites := [], fetchActive := .ok []
                                 fetchArchived := .ok [] }
                       children := [] }
              else none }
        witCfg witUser "KAN-55"
        { id := "SRC", name := "KAN-55: Fix bug", ctype := .publicThread
          parentId := some "CU", parent := none } ∧
    Effect.scheduleDelete "SRC" true
      ∈ handleClaimTicket
        { baseEnv with
            rawAssignFetch := .ok ⟨some true, none, some "Fix bug", none, none, []⟩
            channelsGet := fun cid =>
              if cid = "WCAT" then
                some { chan := { id := "WCAT", name := "working-tickets"
                                 ctype := .guildCategory, parentId := none
                                 overwrites := [], fetchActive := .ok []
                                 fetchArchived := .ok [] }
                       children := [] }
              else none }
        witCfg witUser "KAN-55"
        { id := "SRC", name := "KAN-55: Fix bug", ctype := .publicThread
          parentId := some "CU", parent := none } := by
  have h := claim_missing_client_argument
    { baseEnv with
        rawAssignFetch := .ok ⟨some true, none, some "Fix bug", none, none, []⟩
        channelsGet := fun cid =>
          if cid = "WCAT" then
            some { chan := { id := "WCAT", name := "working-tickets"
                             ctype := .guildCategory, parentId := none
                             overwrites := [], fetchActive := .ok []
                             fetchArchived := .ok [] }
                   children := [] }
          else none }
    witCfg witUser "KAN-55"
    { id := "SRC", name := "KAN-55: Fix bug", ctype := .publicThread
      parentId := some "CU", parent := none }
    ⟨some true, none, some "Fix bug", none, none, []⟩
    { chan := { id := "WCAT", name := "working-tickets", ctype := .guildCategory
                parentId := none, overwrites := [], fetchActive := .ok []
                fetchArchived := .ok [] }
      children := [] }
    rfl rfl (by simp [witCfg]) (by intro ch hch; simp at hch)
  exact h

/-- Helper: a clipboard reaction by a non-bot user on a thread whose parent
forum lies in the working-tickets category is routed to
`handleSubmitForReview`. -/
theorem handleReactionM_clipboard (env : Env) (cfg : Config) (reaction : Reaction)
    (user : UserRec) (jiraTicketKey : String) (forumChan : Chan)
    (hbot : user.bot = false)
    (hpend : reaction.pendingFetch = false)
    (hemoji : reaction.emojiName = "📋")
    (hctype : reaction.channel.ctype = CType.publicThread)
    (hkey : extractKeyForRouting reaction.channel.name reaction.embeds
      = some jiraTicketKey)
    (hnoReview : reaction.channel.parentId ≠ some cfg.tasksForReview)
    (hparent : reaction.channel.parent = some forumChan)
    (hcat : forumChan.parentId = some cfg.workingTickets) :
    handleReactionM env cfg reaction user =
      handleSubmitForReview env cfg user jiraTicketKey reaction.channel := by
  have hc1 : CHECKMARKS.contains "📋" = false := by decide
  have hc2 : DENY_EMOJIS.contains "📋" = false := by decide
  have hc3 : CLIPBOARD.contains "📋" = true := by decide
  have hrev : (match reaction.channel.parentId with
      | some p => p == cfg.tasksForReview
      | none => false) = false := by
    cases hpid : reaction.channel.parentId with
    | none => rfl
    | some p =>
      simp only [beq_eq_false_iff_ne, ne_eq]
      intro hcontra
      exact hnoReview (by rw [hpid, hcontra])
  unfold handleReactionM
  simp only [hbot, hpend, hemoji, hc1, hc2, hc3, hkey, hctype, hrev, hparent,
    Bool.false_and, Bool.and_false, Bool.false_eq_true, if_false, Bool.not_false,
    Bool.not_true, Bool.and_self, Bool.true_and, Bool.and_true, ne_eq,
    not_true_eq_false, false_and, if_true, ite_false, ite_true]
  rw [if_pos hcat]

/-- Helper: with the backend move succeeding on the first attempt and the
review forum present, `handleSubmitForReview` in the owner\x27s forum removes
the reaction, posts the move to In Review, creates the review thread with
the checkmark/cross affordances and PM ping, and confirms in the thread. -/
theorem handleSubmitForReview_success (env : Env) (cfg : Config) (user : UserRec)
    (jiraTicketKey : String) (thread : TriggerThread) (forumChan : Chan)
    (reviewNode : GuildNode) (s tid : String)
    (hparent : thread.parent = some forumChan)
    (hname : forumChan.name = canonicalForumName user.username)
    (hmove : env.moveHttp 1 = .resp true 200 "OK"
        (.ok ⟨some (.jbool true), none, [("summary", s)]⟩))
    (hreview : env.channelsGet cfg.tasksForReview = some reviewNode)
    (hrtype : reviewNode.chan.ctype = CType.guildForum)
    (hcreate : env.reviewThreadCreate reviewNode.chan.id
        (jiraTicketKey ++ ": " ++ jsOr (some s) "Review Request") = .ok tid)
    (hstarter : env.starterFetch tid = .ok true)
    (hr1 : env.reactOk1 = .ok ())
    (hr2 : env.reactOk2 = .ok ()) :
    handleSubmitForReview env cfg user jiraTicketKey thread =
      [.reactionRemove user.id,
       .backendPost cfg.moveTicketPath
         (moveTicketBody jiraTicketKey "In Review" none none (some user.tag)
           (some user.id)),
       .threadCreate reviewNode.chan.id
         (jiraTicketKey ++ ": " ++ jsOr (some s) "Review Request"),
       .reactAdd "✅", .reactAdd "❌",
       .threadSend tid ("<@&" ++ cfg.rolesPm ++ "> New task ready for review!"),
       .threadSend thread.id "Submitted for review! PMs have been notified."] := by
  have hexec : executeRequest env.moveHttp =
      (mkEnvelope ⟨some (.jbool true), none, [("summary", s)]⟩, 1, []) :=
    executeRequest_first_ok _ _ (by rw [hmove]; rfl)
  unfold handleSubmitForReview submitForReview createReviewThread executeRequestE
  rw [hparent]
  simp only [hexec, hreview, hrtype, hstarter, hr1, hr2, hname, if_pos rfl]
  simp only [mkEnvelope, jsTruthy, List.lookup, beq_self_eq_true, Bool.not_true,
    Bool.false_eq_true, if_false, isForumType, List.replicate, ite_true, ite_false]
  rw [hcreate]
  simp only [hstarter]
  rfl

/-- Claim C4: a clipboard reaction added by a non-bot user to a ticket
thread whose parent forum is that user\x27s own working forum (name equal to
`tasks-<sanitized-username>`) performs the submit-for-review transition:
the backend is called to move the ticket to In Review, and a thread with
the approve/deny reaction affordances is created in the review forum with
the PM role pinged (the routing step is modelled from the spec, see
`handleReactionM`). -/
theorem clipboard_submit_for_review (env : Env) (cfg : Config)
    (reaction : Reaction) (user : UserRec) (jiraTicketKey : String)
    (forumChan : Chan) (reviewNode : GuildNode) (s tid : String)
    (hbot : user.bot = false)
    (hpend : reaction.pendingFetch = false)
    (hemoji : reaction.emojiName = "📋")
    (hctype : reaction.channel.ctype = CType.publicThread)
    (hkey : extractKeyForRouting reaction.channel.name reaction.embeds
      = some jiraTicketKey)
    (hnoReview : reaction.channel.parentId ≠ some cfg.tasksForReview)
    (hparent : reaction.channel.parent = some forumChan)
    (hcat : forumChan.parentId = some cfg.workingTickets)
    (hname : forumChan.name = canonicalForumName user.username)
    (hmove : env.moveHttp 1 = .resp true 200 "OK"
        (.ok ⟨some (.jbool true), none, [("summary", s)]⟩))
    (hreview : env.channelsGet cfg.tasksForReview = some reviewNode)
    (hrtype : reviewNode.chan.ctype = CType.guildForum)
    (hcreate : env.reviewThreadCreate reviewNode.chan.id
        (jiraTicketKey ++ ": " ++ jsOr (some s) "Review Request") = .ok tid)
    (hstarter : env.starterFetch tid = .ok true)
    (hr1 : env.reactOk1 = .ok ())
    (hr2 : env.reactOk2 = .ok ()) :
    handleReactionM env cfg reaction user =
      [.reactionRemove user.id,
       .backendPost cfg.moveTicketPath
         (moveTicketBody jiraTicketKey "In Review" none none (some user.tag)
           (some user.id)),
       .threadCreate reviewNode.chan.id
         (jiraTicketKey ++ ": " ++ jsOr (some s) "Review Request"),
       .reactAdd "✅", .reactAdd "❌",
       .threadSend tid ("<@&" ++ cfg.rolesPm ++ "> New task ready for review!"),
       .threadSend reaction.channel.id
         "Submitted for review! PMs have been notified."] ∧
    ("targetStatus", "In Review") ∈
      moveTicketBody jiraTicketKey "In Review" none none (some user.tag)
        (some user.id) := by
  constructor
  · rw [handleReactionM_clipboard env cfg reaction user jiraTicketKey forumChan
      hbot hpend hemoji hctype hkey hnoReview hparent hcat]
    exact handleSubmitForReview_success env cfg user jiraTicketKey
      reaction.channel forumChan reviewNode s tid hparent hname hmove hreview
      hrtype hcreate hstarter hr1 hr2
  · simp [moveTicketBody]

/-- The reactor\x27s own working forum of the C4 witness scenario. -/
def c4OwnForum : Chan :=
  { id := "UF", name := "tasks-alice", ctype := .guildForum
    parentId := some "WCAT", overwrites := []
    fetchActive := .ok [], fetchArchived := .ok [] }

/-- The review forum node of the C4 witness scenario. -/
def c4ReviewNode : GuildNode :=
  { chan := { id := "RF", name := "tasks-for-review", ctype := .guildForum
              parentId := none, overwrites := []
              fetchActive := .ok [], fetchArchived := .ok [] }
    children := [] }

/-- The environment of the C4 witness scenario: backend move succeeds,
review forum present, thread creation and starter fetch succeed. -/
def c4Env : Env :=
  { baseEnv with
      moveHttp := fun _ => .resp true 200 "OK"
        (.ok ⟨some (.jbool true), none, [("summary", "Fix bug")]⟩)
      channelsGet := fun cid => if cid = "REVF" then some c4ReviewNode else none
      reviewThreadCreate := fun _ _ => .ok "RT9"
      starterFetch := fun _ => .ok true }

/-- The clipboard reaction of the C4 witness scenario, in alice\x27s own
working forum. -/
def c4Reaction : Reaction :=
  { pendingFetch := false, fetchOk := true, emojiName := "📋"
    channel := { id := "TH1", name := "KAN-123: Fix bug", ctype := .publicThread
                 parentId := some "UF", parent := some c4OwnForum }
    embeds := [] }

/-- Witness for C4 at the concrete scenario. -/
theorem clipboard_submit_for_review_witness :
    handleReactionM c4Env witCfg c4Reaction witUser =
      [.reactionRemove witUser.id,
       .backendPost witCfg.moveTicketPath
         (moveTicketBody "KAN-123" "In Review" none none (some witUser.tag)
           (some witUser.id)),
       .threadCreate c4ReviewNode.chan.id
         ("KAN-123" ++ ": " ++ jsOr (some "Fix bug") "Review Request"),
       .reactAdd "✅", .reactAdd "❌",
       .threadSend "RT9" ("<@&" ++ witCfg.rolesPm ++ "> New task ready for review!"),
       .threadSend c4Reaction.channel.id
         "Submitted for review! PMs have been notified."] ∧
    ("targetStatus", "In Review") ∈
      moveTicketBody "KAN-123" "In Review" none none (some witUser.tag)
        (some witUser.id) :=
  clipboard_submit_for_review c4Env witCfg c4Reaction witUser "KAN-123"
    c4OwnForum c4ReviewNode "Fix bug" "RT9"
    rfl rfl rfl rfl (by decide) (by decide) rfl (by decide) (by decide)
    rfl rfl (by decide) rfl rfl rfl rfl

end DJB
